import Mathlib

/-!
Shallow embedding of the trade-surveillance ETL engine under
`src/10_process/src`: the canonical data model (`p01_ingestion/schema.py`),
the enrichment stage (`p02_enrichment/enrich.py`) and the validation stage
(`p03_validation/rules.py`, `p03_validation/validator.py`).

Modelling conventions:
* a pandas cell is an `Option`; `none` stands for NA/NaN;
* the `float64` columns (`price`, `notional`) are modelled as exact
  rationals; the properties studied here only involve products and order
  comparisons of the very values the code itself computes, so no binary
  rounding behaviour is load-bearing;
* a DataFrame is a list of fixed-schema rows together with the list of
  column names present in the batch (the rules branch on column presence;
  `coerce_schema` in `p01_ingestion/extract.py` guarantees a canonical
  batch carries every canonical column);
* the reference-master joins are modelled at two levels.  The merge-level
  model (`enrich_product_merge`, `enrich_client_merge`,
  `run_enrichment_merge`) reproduces the pandas left merges in full: one
  output row per matching master entry (`pd.merge` matches NA join keys
  with NA join keys, so matching compares `Option` values for equality),
  index-aligned `combine_first`, positional `.loc` assignment, and the two
  exceptions the merge code can raise (the unalignable boolean indexer in
  `df.loc[need_cusip]` after a fan-out, and the shape mismatch in the
  `.values` assignment).  The keyed model (`enrich_row`, `run_enrichment`)
  is the per-row first-match restriction; it is proven below to be exactly
  what the merge-level model returns whenever each row matches at most one
  master entry per join key, as with the keyed tables of spec section 3.
-/

namespace TradeETL

/-- Canonical trade record, one row of the batch
(`p01_ingestion/schema.py`: `CANONICAL_ORDER` and `DTYPES`).  Every
canonical field is always present and nullable; `quantity` is a nullable
integer (`Int64`), `price` and `notional` are nullable floats. -/
structure Row where
  trade_id : Option String := none
  order_id : Option String := none
  client_id : Option String := none
  isin : Option String := none
  cusip : Option String := none
  symbol : Option String := none
  side : Option String := none
  quantity : Option Int := none
  price : Option ℚ := none
  trade_date : Option String := none
  trade_ts : Option String := none
  currency : Option String := none
  venue : Option String := none
  instrument_type : Option String := none
  liquidity_bucket : Option String := none
  desk : Option String := none
  source_system : Option String := none
  risk_tier : Option String := none
  region : Option String := none
  notional : Option ℚ := none
deriving Repr, DecidableEq, Inhabited

/-- One entry of the product master reference table
(`_load_reference` in `p02_enrichment/enrich.py`): columns
`isin, cusip, symbol, instrument_type, liq_rule_key`. -/
structure ProductEntry where
  isin : Option String := none
  cusip : Option String := none
  symbol : Option String := none
  instrument_type : Option String := none
  liq_rule_key : Option String := none
deriving Repr, DecidableEq, Inhabited

/-- One entry of the client master reference table
(`_load_reference` in `p02_enrichment/enrich.py`): columns
`customerID, risk_tier, region`. -/
structure ClientEntry where
  customerID : Option String := none
  risk_tier : Option String := none
  region : Option String := none
deriving Repr, DecidableEq, Inhabited

/-- A tabular batch: the column names present in its schema plus its rows.
Rows always carry every canonical field (as nullable slots); `cols`
records which columns the batch schema actually has, which is what the
validation rules test with `col in df.columns`. -/
structure DataFrame where
  cols : List String
  rows : List Row
deriving Repr, DecidableEq, Inhabited

/-- Constant `CANONICAL_ORDER` from `p01_ingestion/schema.py`. -/
def canonicalCols : List String :=
  ["trade_id", "order_id", "client_id",
   "isin", "cusip", "symbol",
   "side", "quantity", "price",
   "trade_date", "trade_ts",
   "currency", "venue", "instrument_type",
   "liquidity_bucket", "desk", "source_system",
   "risk_tier", "region", "notional"]

/-! ## Enrichment (`p02_enrichment/enrich.py`) -/

/-- Function `_enrich_product`, per row.  The left merge on `isin` is written with
`suffixes=("", "_pm")`; the canonical batch already owns `symbol` and
`instrument_type` columns, so the product-master values of those two
columns land in the fresh `symbol_pm` / `instrument_type_pm` columns while
the unsuffixed `symbol` / `instrument_type` keep the batch values, and only
`liq_rule_key` (a name new to the batch) is taken from the ISIN match.
Consequently `need_cusip = out["symbol"].isna() & out["cusip"].notna()`
tests the row's own `symbol`.  The rows selected by `need_cusip` get
`symbol`, `instrument_type` and `liq_rule_key` overwritten from the CUSIP
match (NA where the CUSIP finds nothing), after which the two
`combine_first(df[...])` calls fall back to the row's own pre-merge value
wherever the current value is NA.  The `symbol_pm` / `instrument_type_pm`
columns are never read afterwards and are not represented on `Row`.
Returns the updated row together with its `liq_rule_key` hint cell. -/
def enrich_product_row (pm : List ProductEntry) (r : Row) : Row × Option String :=
  let isinHit := pm.find? (fun e => e.isin == r.isin)
  let liq0 := isinHit.bind ProductEntry.liq_rule_key
  if r.symbol.isNone && r.cusip.isSome then
    let cusipHit := pm.find? (fun e => e.cusip == r.cusip)
    let sym := cusipHit.bind ProductEntry.symbol
    let ity := cusipHit.bind ProductEntry.instrument_type
    ({ r with
        symbol := sym.orElse (fun _ => r.symbol),
        instrument_type := ity.orElse (fun _ => r.instrument_type) },
      cusipHit.bind ProductEntry.liq_rule_key)
  else
    (r, liq0)

/-- Function `_enrich_client`, per row.  The canonical batch already owns
`risk_tier` and `region` columns, so the left merge on
`client_id = customerID` (default suffixes) renames both sides to
`risk_tier_x/_y` and `region_x/_y`; the follow-up
`if "risk_tier" not in out.columns` branches then create fresh all-NA
`risk_tier` and `region` columns.  Net effect on the canonical fields:
both become NA for every row (the client-master argument is kept for the
interface but cannot influence the canonical columns). -/
def enrich_client_row (cm : List ClientEntry) (r : Row) : Row :=
  let _hit := cm.find? (fun e => e.customerID == r.client_id)
  { r with risk_tier := none, region := none }

/-- Function `_derive_notional`: `df["notional"] = quantity.astype(float64) *
price.astype(float64)`, unconditionally for every row; NA times anything
is NA. -/
def derive_notional (r : Row) : Row :=
  { r with
    notional :=
      match r.quantity, r.price with
      | some q, some p => some ((q : ℚ) * p)
      | _, _ => none }

/-- The inner `rule` closure of `_fill_liquidity`: threshold buckets from
`instrument_type` and `notional`, NA on a missing input or an unknown
instrument type. -/
def liquidity_rule (it : Option String) (n : Option ℚ) : Option String :=
  match it, n with
  | some it, some n =>
    if it = "BOND" then
      if n ≥ 5000000 then some "HIGH"
      else if n ≥ 1000000 then some "MED"
      else some "LOW"
    else if it = "SWAP" ∨ it = "FUTURE" ∨ it = "OPTION" ∨ it = "REPO" then
      if n ≥ 10000000 then some "HIGH"
      else if n ≥ 2000000 then some "MED"
      else some "LOW"
    else none
  | _, _ => none

/-- Function `_fill_liquidity`, per row: keep a non-NA `liquidity_bucket`; else the
rows with a non-NA `liq_rule_key` adopt it (`needs_fill` mask); the rows
still NA (`still_missing` mask) go through the threshold `rule`. -/
def fill_liquidity_row (r : Row) (liq : Option String) : Option String :=
  match r.liquidity_bucket with
  | some b => some b
  | none =>
    match liq with
    | some k => some k
    | none => liquidity_rule r.instrument_type r.notional

/-- Function `run_enrichment`, per row: product join, client join, notional
derivation, liquidity fill; the `liq_rule_key` hint column is threaded to
the liquidity fill and then dropped. -/
def enrich_row (pm : List ProductEntry) (cm : List ClientEntry) (r : Row) : Row :=
  let pr := enrich_product_row pm r
  let r2 := enrich_client_row cm pr.1
  let r3 := derive_notional r2
  { r3 with liquidity_bucket := fill_liquidity_row r3 pr.2 }

/-- Columns of the enriched batch produced by `run_enrichment` from a
canonical batch: the canonical columns (with `risk_tier`/`region` renamed
to `_x` by the client merge and re-created as fresh NA columns at the end)
plus the suffixed leftovers of the two merges; `liq_rule_key` is dropped. -/
def enrichedCols : List String :=
  ["trade_id", "order_id", "client_id",
   "isin", "cusip", "symbol",
   "side", "quantity", "price",
   "trade_date", "trade_ts",
   "currency", "venue", "instrument_type",
   "liquidity_bucket", "desk", "source_system",
   "risk_tier_x", "region_x", "notional",
   "symbol_pm", "instrument_type_pm",
   "risk_tier_y", "region_y",
   "risk_tier", "region"]

/-- Function `run_enrichment` on a canonical batch, keyed-table form: the
per-row map.  This is the restriction of the merge-level model
`run_enrichment_merge` below to reference tables whose join keys match
each row at most once; the agreement is proven in the theorems section,
so row preservation is a consequence of the merge semantics under that
proviso, not an assumption. -/
def run_enrichment (pm : List ProductEntry) (cm : List ClientEntry)
    (df : DataFrame) : DataFrame :=
  { cols := enrichedCols, rows := df.rows.map (enrich_row pm cm) }

/-! ## Merge-level enrichment (`p02_enrichment/enrich.py`, full pandas
merge semantics with duplicate-key fan-out and the raising cases) -/

/-- Mask `need_cusip = out["symbol"].isna() & out["cusip"].notna()` on one
merged row (the unsuffixed `symbol` column is the batch row's own). -/
def needCusip (p : Row × Option String) : Bool :=
  p.1.symbol.isNone && p.1.cusip.isSome

/-- The left merge of the batch with the product master on `isin`
(`enrich.py` lines 41-44): for each batch row, one output row per master
entry whose `isin` cell equals the row's (`pd.merge` matches NA with NA),
in master order; a row with no match passes through once with an NA
`liq_rule_key`.  Each output row keeps the batch row's canonical fields
(the master's `symbol`/`instrument_type` go to the never-read suffixed
columns) and carries the matched `liq_rule_key` hint as second
component. -/
def isinMerge (pm : List ProductEntry) (rows : List Row) :
    List (Row × Option String) :=
  rows.flatMap (fun r =>
    match pm.filter (fun e => e.isin == r.isin) with
    | [] => [(r, none)]
    | hits => hits.map (fun e => (r, e.liq_rule_key)))

/-- Per-row content of one ISIN-merge output row under a keyed master: the
row itself (the master's `symbol`/`instrument_type` go to the suffixed
columns) paired with the first-match `liq_rule_key` hint. -/
def isinKeyedRow (pm : List ProductEntry) (r : Row) : Row × Option String :=
  (r, (pm.find? (fun e => e.isin == r.isin)).bind ProductEntry.liq_rule_key)

/-- The left merge of the selected rows with the product master on `cusip`
(`enrich.py` lines 47-50): per selected row, one entry per matching master
row, `none` when nothing matches. -/
def cusipMerge (pm : List ProductEntry) (sel : List Row) :
    List (Option ProductEntry) :=
  sel.flatMap (fun r =>
    match pm.filter (fun e => e.cusip == r.cusip) with
    | [] => [none]
    | hits => hits.map some)

/-- The raw `.loc` assignment of one CUSIP-merge result row into a merged
row (`enrich.py` lines 51-52): `symbol`, `instrument_type` and
`liq_rule_key` are overwritten, NA included; `combine_first` runs later. -/
def applyCusipOverwrite (p : Row × Option String) (hit : Option ProductEntry) :
    Row × Option String :=
  ({ p.1 with
      symbol := hit.bind ProductEntry.symbol,
      instrument_type := hit.bind ProductEntry.instrument_type },
    hit.bind ProductEntry.liq_rule_key)

/-- Positional assignment of the CUSIP-merge rows into the masked
positions of the merged frame: the k-th `need_cusip` position receives the
k-th value row.  The empty-values fallback is unreachable in
`enrich_product_merge`, which has already checked the shapes match. -/
def assignMasked : List (Row × Option String) → List (Option ProductEntry) →
    List (Row × Option String)
  | [], _ => []
  | p :: ps, hits =>
    if needCusip p then
      match hits with
      | [] => applyCusipOverwrite p none :: assignMasked ps []
      | h :: hs => applyCusipOverwrite p h :: assignMasked ps hs
    else
      p :: assignMasked ps hits

/-- One step of the two `combine_first(df[...])` calls (`enrich.py` lines
54-55) at one output index: fill an NA `instrument_type`/`symbol` from the
batch row aligned at the same index, or leave it when the batch has no row
there (after a fan-out the output is longer than the batch). -/
def combineRow (d : Option Row) (p : Row × Option String) :
    Row × Option String :=
  ({ p.1 with
      instrument_type := p.1.instrument_type.orElse
        (fun _ => d.bind Row.instrument_type),
      symbol := p.1.symbol.orElse (fun _ => d.bind Row.symbol) },
    p.2)

/-- Both `combine_first` calls over the whole output frame, index-aligned
with the batch: output index j combines with batch index j when it
exists. -/
def combineFirstAligned : List Row → List (Row × Option String) →
    List (Row × Option String)
  | _, [] => []
  | [], p :: ps => combineRow none p :: combineFirstAligned [] ps
  | d :: ds, p :: ps => combineRow (some d) p :: combineFirstAligned ds ps

/-- Function `_enrich_product` at batch level, full merge semantics.
After the ISIN merge, if no row needs the CUSIP fallback, only the
`combine_first` calls run.  Otherwise `df.loc[need_cusip, ["cusip"]]`
indexes the batch with a boolean Series carried by the output index: when
a fan-out made the output longer than the batch, pandas raises
`IndexingError` (unalignable boolean indexer); with equal lengths the mask
aligns positionally.  The `.values` assignment then requires the CUSIP
merge to return exactly one row per selected row, else pandas raises
`ValueError` (shape mismatch). -/
def enrich_product_merge (pm : List ProductEntry) (rows : List Row) :
    Except String (List (Row × Option String)) :=
  let out := isinMerge pm rows
  if out.all (fun p => !(needCusip p)) then
    Except.ok (combineFirstAligned rows out)
  else if out.length ≠ rows.length then
    Except.error "IndexingError: unalignable boolean Series provided as indexer"
  else
    let sel := ((rows.zip (out.map needCusip)).filter (fun q => q.2)).map Prod.fst
    let byCusip := cusipMerge pm sel
    if byCusip.length ≠ sel.length then
      Except.error "ValueError: could not broadcast values"
    else
      Except.ok (combineFirstAligned rows (assignMasked out byCusip))

/-- Function `_enrich_client` at batch level, full merge semantics: the
left merge on `client_id = customerID` emits one output row per matching
client entry (one when none matches); the suffix collision on
`risk_tier`/`region` makes both canonical fields NA on every output row
whatever the match, so only the multiplicity of the match matters. -/
def enrich_client_merge (cm : List ClientEntry)
    (ps : List (Row × Option String)) : List (Row × Option String) :=
  ps.flatMap (fun p =>
    match cm.filter (fun e => e.customerID == p.1.client_id) with
    | [] => [({ p.1 with risk_tier := none, region := none }, p.2)]
    | hits => hits.map (fun _ => ({ p.1 with risk_tier := none, region := none }, p.2)))

/-- Per-row tail of the pipeline after the merges: notional derivation and
liquidity fill, consuming the threaded `liq_rule_key` hint (these two
steps are genuine column operations, per-row even under fan-out). -/
def finalize_row (p : Row × Option String) : Row :=
  let r3 := derive_notional p.1
  { r3 with liquidity_bucket := fill_liquidity_row r3 p.2 }

/-- Function `run_enrichment` at merge level: product merge (which can
raise), client merge, then the per-row derivations; `liq_rule_key` is
dropped from the final frame. -/
def run_enrichment_merge (pm : List ProductEntry) (cm : List ClientEntry)
    (df : DataFrame) : Except String DataFrame :=
  match enrich_product_merge pm df.rows with
  | Except.error e => Except.error e
  | Except.ok prod =>
    Except.ok { cols := enrichedCols,
                rows := (enrich_client_merge cm prod).map finalize_row }

/-! ## Validation rules (`p03_validation/rules.py`) -/

/-- Breach record emitted by a rule (`rules.py` module docstring and
`_breaches_df`). -/
structure Breach where
  rule_id : String
  severity : String
  reason : String
  row_index : Nat
  keys : String
deriving Repr, DecidableEq, Inhabited

/-- Python `str` of a nullable cell, as used when a breach carries its key
string (`str(pd.NA)` prints as `<NA>`). -/
def optStr : Option String → String
  | none => "<NA>"
  | some s => s

/-- Key display string of row `i`, from `_breaches_df`:
`trade_id=...|order_id=...`, with `NA` for a column absent from the
batch schema. -/
def keysOf (df : DataFrame) (i : Nat) : String :=
  let r := df.rows.getD i default
  let t := if df.cols.contains "trade_id" then optStr r.trade_id else "NA"
  let o := if df.cols.contains "order_id" then optStr r.order_id else "NA"
  "trade_id=" ++ t ++ "|order_id=" ++ o

/-- Function `_breaches_df`: one breach per offending row index (the pandas
index sets the rules build are unions of subsets of a range index, hence
already in ascending order, which is how every rule below produces its
index list). -/
def breaches_df (rule_id severity reason : String) (idx : List Nat)
    (df : DataFrame) : List Breach :=
  idx.map (fun i =>
    { rule_id := rule_id, severity := severity, reason := reason,
      row_index := i, keys := keysOf df i })

/-- Mandatory columns of `rule_mandatory` (`required` list, aligned with
`MANDATORY` in `schema.py`). -/
def requiredCols : List String :=
  ["trade_id", "order_id", "client_id", "side",
   "quantity", "price", "trade_ts", "instrument_type"]

/-- Predicate of `rule_mandatory` on one row: some mandatory cell is NA. -/
def rowMissingMandatory (r : Row) : Bool :=
  r.trade_id.isNone || r.order_id.isNone || r.client_id.isNone ||
  r.side.isNone || r.quantity.isNone || r.price.isNone ||
  r.trade_ts.isNone || r.instrument_type.isNone

/-- Rule R001: flag every row with an NA mandatory cell; if some mandatory
column is absent from the batch schema the loop reassigns
`missing_idx = df.index` and breaks, so every row is flagged. -/
def rule_mandatory (df : DataFrame) : List Breach :=
  let idx :=
    if requiredCols.all (fun c => df.cols.contains c) then
      (List.range df.rows.length).filter
        (fun i => rowMissingMandatory (df.rows.getD i default))
    else
      List.range df.rows.length
  breaches_df "R001_MANDATORY" "CRITICAL"
    "Mandatory fields must not be null" idx df

/-- Enumeration `ENUM_SIDE`. -/
def enumSide : List String := ["BUY", "SELL"]

/-- Enumeration `ENUM_INSTRUMENT`. -/
def enumInstrument : List String := ["BOND", "SWAP", "FUTURE", "OPTION", "REPO"]

/-- Enumeration `ENUM_CCY`. -/
def enumCcy : List String := ["USD", "EUR", "GBP", "JPY"]

/-- Rule R002: a non-NA `side`, `instrument_type` or `currency` outside its
enumeration, each check guarded by column presence; the three index sets
are unioned. -/
def rule_domain_enums (df : DataFrame) : List Breach :=
  let bad := fun (i : Nat) =>
    let r := df.rows.getD i default
    (df.cols.contains "side" &&
      (match r.side with
       | some s => !(enumSide.contains s)
       | none => false)) ||
    (df.cols.contains "instrument_type" &&
      (match r.instrument_type with
       | some s => !(enumInstrument.contains s)
       | none => false)) ||
    (df.cols.contains "currency" &&
      (match r.currency with
       | some s => !(enumCcy.contains s)
       | none => false))
  breaches_df "R002_ENUMS" "HIGH" "Value not in allowed enumerations"
    ((List.range df.rows.length).filter bad) df

/-- Rule R003: a non-NA `quantity` or `price` that is not positive. -/
def rule_numeric_positive (df : DataFrame) : List Breach :=
  let bad := fun (i : Nat) =>
    let r := df.rows.getD i default
    (df.cols.contains "quantity" &&
      (match r.quantity with
       | some q => decide (q ≤ 0)
       | none => false)) ||
    (df.cols.contains "price" &&
      (match r.price with
       | some p => decide (p ≤ 0)
       | none => false))
  breaches_df "R003_POSITIVE" "HIGH" "Quantity and Price must be > 0"
    ((List.range df.rows.length).filter bad) df

/-- Regex `_ISIN_RE`: two uppercase letters, nine uppercase alphanumerics,
one digit (full match, 12 characters). -/
def isinFormat (s : String) : Bool :=
  let l := s.toList
  l.length == 12 && (l.take 2).all Char.isUpper &&
  ((l.drop 2).take 9).all (fun c => c.isUpper || c.isDigit) &&
  (l.drop 11).all Char.isDigit

/-- Regex `_CUSIP_RE`: nine uppercase alphanumerics (full match). -/
def cusipFormat (s : String) : Bool :=
  let l := s.toList
  l.length == 9 && l.all (fun c => c.isUpper || c.isDigit)

/-- Rule R004: a non-NA `isin` or `cusip` failing its format regex. -/
def rule_identifier_format (df : DataFrame) : List Breach :=
  let bad := fun (i : Nat) =>
    let r := df.rows.getD i default
    (df.cols.contains "isin" &&
      (match r.isin with
       | some s => !(isinFormat s)
       | none => false)) ||
    (df.cols.contains "cusip" &&
      (match r.cusip with
       | some s => !(cusipFormat s)
       | none => false))
  breaches_df "R004_ID_FORMAT" "MEDIUM" "Invalid ISIN/CUSIP format"
    ((List.range df.rows.length).filter bad) df

/-- Leap-year test of the proleptic Gregorian calendar used by pandas
timestamps. -/
def isLeap (y : Nat) : Bool :=
  (y % 4 == 0 && y % 100 != 0) || y % 400 == 0

/-- Day count of month `m` in year `y`. -/
def daysInMonth (y m : Nat) : Nat :=
  if m = 2 then (if isLeap y then 29 else 28)
  else if m = 4 ∨ m = 6 ∨ m = 9 ∨ m = 11 then 30
  else 31

/-- Numeric value of a decimal digit character. -/
def digitVal (c : Char) : Nat := c.toNat - 48

/-- Calendar-date parser modelling `pd.to_datetime(errors="coerce")` on the
`YYYY-MM-DD` strings that ingestion produces for `trade_date`
(`normalize_values` in `p01_ingestion/extract.py` reformats the column to
exactly that shape); any other input coerces to NaT, i.e. `none`. -/
def parseDate (s : String) : Option (Nat × Nat × Nat) :=
  match s.toList with
  | [y1, y2, y3, y4, c1, m1, m2, c2, d1, d2] =>
    if (y1.isDigit && y2.isDigit && y3.isDigit && y4.isDigit &&
        c1 == '-' && m1.isDigit && m2.isDigit &&
        c2 == '-' && d1.isDigit && d2.isDigit) then
      let y := ((digitVal y1 * 10 + digitVal y2) * 10 + digitVal y3) * 10 + digitVal y4
      let m := digitVal m1 * 10 + digitVal m2
      let d := digitVal d1 * 10 + digitVal d2
      if 1 ≤ m ∧ m ≤ 12 ∧ 1 ≤ d ∧ d ≤ daysInMonth y m then
        some (y, m, d)
      else none
    else none
  | _ => none

/-- Calendar date (`tts.dt.date`) of a timestamp string, modelling
`pd.to_datetime(errors="coerce", utc=True)` on the
`YYYY-MM-DDTHH:MM:SSZ` strings that ingestion produces for `trade_ts`:
the leading date part, provided the remainder is a time part (or empty). -/
def tsCalendarDate (s : String) : Option (Nat × Nat × Nat) :=
  let rest := s.drop 10
  if rest = "" ∨ rest.startsWith "T" ∨ rest.startsWith " " then
    parseDate (s.take 10)
  else none

/-- Strict lexicographic order on calendar dates. -/
def dateLt (a b : Nat × Nat × Nat) : Bool :=
  decide (a.1 < b.1 ∨ (a.1 = b.1 ∧
    (a.2.1 < b.2.1 ∨ (a.2.1 = b.2.1 ∧ a.2.2 < b.2.2))))

/-- Rule R005: both `trade_date` and `trade_ts` parse and the calendar
date of `trade_ts` precedes `trade_date`; requires both columns in the
batch schema. -/
def rule_timestamp_sanity (df : DataFrame) : List Breach :=
  let bad := fun (i : Nat) =>
    let r := df.rows.getD i default
    match r.trade_date, r.trade_ts with
    | some ds, some ts =>
      match parseDate ds, tsCalendarDate ts with
      | some d, some t => dateLt t d
      | _, _ => false
    | _, _ => false
  let idx :=
    if df.cols.contains "trade_date" && df.cols.contains "trade_ts" then
      (List.range df.rows.length).filter bad
    else []
  breaches_df "R005_TS_SANITY" "MEDIUM"
    "trade_ts must be on/after trade_date" idx df

/-- Rule R006: `quantity`, `price`, `notional` all non-NA and the stored
notional differs from the recomputed product by more than the 0.01
tolerance; requires the three columns in the batch schema. -/
def rule_notional_consistency (df : DataFrame) : List Breach :=
  let bad := fun (i : Nat) =>
    let r := df.rows.getD i default
    match r.quantity, r.price, r.notional with
    | some q, some p, some n => decide (|n - (q : ℚ) * p| > 1 / 100)
    | _, _, _ => false
  let idx :=
    if df.cols.contains "quantity" && df.cols.contains "price" &&
        df.cols.contains "notional" then
      (List.range df.rows.length).filter bad
    else []
  breaches_df "R006_NOTIONAL" "LOW"
    "Notional differs from quantity*price (tolerance 0.01)" idx df

/-- Rule R007: every member of a group sharing a `trade_id`, and every
member of a group sharing the whole soft-collision tuple
`(order_id, trade_ts, quantity, price)` (the latter only when all four
columns are present); `df.duplicated(..., keep=False)` counts NA cells as
equal to NA cells, which `Option` equality mirrors. -/
def rule_duplicate_keys (df : DataFrame) : List Breach :=
  let bad := fun (i : Nat) =>
    let r := df.rows.getD i default
    (df.cols.contains "trade_id" &&
      decide (2 ≤ df.rows.countP (fun s => s.trade_id == r.trade_id))) ||
    (["order_id", "trade_ts", "quantity", "price"].all
        (fun c => df.cols.contains c) &&
      decide (2 ≤ df.rows.countP (fun s =>
        s.order_id == r.order_id && s.trade_ts == r.trade_ts &&
        s.quantity == r.quantity && s.price == r.price)))
  breaches_df "R007_DUPLICATES" "CRITICAL"
    "Duplicate trade_id or (order_id,trade_ts,quantity,price) collision"
    ((List.range df.rows.length).filter bad) df

/-- The fixed rule battery of `run_all_rules`, in source order. -/
def ruleBattery : List (DataFrame → List Breach) :=
  [rule_mandatory, rule_domain_enums, rule_numeric_positive,
   rule_identifier_format, rule_timestamp_sanity,
   rule_notional_consistency, rule_duplicate_keys]

/-- Function `run_all_rules`: run every rule, drop the empty result frames,
concatenate the rest (an all-empty battery concatenates to the empty
breach frame). -/
def run_all_rules (df : DataFrame) : List Breach :=
  (((ruleBattery.map (fun rule => rule df)).filter
      (fun l => 0 < l.length)).flatten)

/-! ## Validation orchestrator (`p03_validation/validator.py`)

The orchestrator's file writing (curated/exceptions/metrics paths) is
peripheral I/O outside the engine; the embedding keeps its pure content:
the partition of the enriched rows and the metrics dictionary. -/

/-- Indices of the rows carrying at least one breach
(`failed_idx = set(breaches["row_index"])`). -/
def failedIdxOf (breaches : List Breach) : List Nat :=
  breaches.map Breach.row_index

/-- Rows whose index is in no breach (`df_enriched.loc[passed_mask]`),
kept with their original index and in their original order. -/
def passedOf (df : DataFrame) (breaches : List Breach) : List (Nat × Row) :=
  df.rows.enum.filter (fun p => !((failedIdxOf breaches).contains p.1))

/-- Rows whose index carries some breach (`df_enriched.loc[~passed_mask]`),
kept with their original index and in their original order. -/
def failedOf (df : DataFrame) (breaches : List Breach) : List (Nat × Row) :=
  df.rows.enum.filter (fun p => (failedIdxOf breaches).contains p.1)

/-- Round-half-to-even on rationals, the rounding of Python's `round`. -/
def roundHalfEven (q : ℚ) : ℤ :=
  if Int.fract q < 1 / 2 then ⌊q⌋
  else if Int.fract q > 1 / 2 then ⌊q⌋ + 1
  else if 2 ∣ ⌊q⌋ then ⌊q⌋ else ⌊q⌋ + 1

/-- Python `round(x, 2)`. -/
def round2 (q : ℚ) : ℚ := (roundHalfEven (q * 100) : ℚ) / 100

/-- Metrics dictionary assembled by `run_validation` (without the run
timestamp, which is wall-clock I/O). -/
structure Metrics where
  input_rows : Nat
  passed_rows : Nat
  failed_rows : Nat
  breach_count : Nat
  pass_rate_pct : ℚ
deriving Repr, DecidableEq, Inhabited

/-- Pure content of the dictionary returned by `run_validation`: the three
output collections and the metrics. -/
structure ValidationResult where
  passed : List (Nat × Row)
  failed : List (Nat × Row)
  breaches : List Breach
  metrics : Metrics
deriving Repr, DecidableEq, Inhabited

/-- Function `run_validation`: run the battery, split the batch by breach
row indices, compute the metrics;
`pass_rate_pct = round(100*passed/max(1,input), 2)`. -/
def run_validation (df : DataFrame) : ValidationResult :=
  let breaches := run_all_rules df
  let passed := passedOf df breaches
  let failed := failedOf df breaches
  { passed := passed, failed := failed, breaches := breaches,
    metrics :=
      { input_rows := df.rows.length,
        passed_rows := passed.length,
        failed_rows := failed.length,
        breach_count := breaches.length,
        pass_rate_pct :=
          round2 (100 * (passed.length : ℚ) / (max 1 df.rows.length : ℚ)) } }

/-! ## Specification-side definitions and concrete inputs

The remaining definitions are the specification transcription used by the
refinement statement about the liquidity precedence, and the concrete
batches and reference tables at which the theorems below are
instantiated. -/

/-- Liquidity-bucket precedence exactly as the specification words it
(spec section 4.1, transcribed for comparison with `fill_liquidity_row`):
keep an already non-null bucket; else adopt a non-null `liq_rule_key`;
else threshold on `instrument_type` and `notional`; else null. -/
def liquiditySpecC2 (r : Row) (liq : Option String) : Option String :=
  if r.liquidity_bucket ≠ none then r.liquidity_bucket
  else if liq ≠ none then liq
  else
    match r.instrument_type, r.notional with
    | some it, some n =>
      if it = "BOND" then
        some (if 5000000 ≤ n then "HIGH" else if 1000000 ≤ n then "MED" else "LOW")
      else if it ∈ ["SWAP", "FUTURE", "OPTION", "REPO"] then
        some (if 10000000 ≤ n then "HIGH" else if 2000000 ≤ n then "MED" else "LOW")
      else none
    | _, _ => none

/-- Product master with one entry, keyed by ISIN and carrying a non-null
symbol and instrument type. -/
def pmC1 : List ProductEntry :=
  [{ isin := some "US0000000001", symbol := some "ACME",
     instrument_type := some "BOND" }]

/-- Input row whose ISIN matches the single `pmC1` entry; its own
`symbol` and `instrument_type` are null. -/
def rowC1 : Row := { isin := some "US0000000001" }

/-- BOND row whose derived notional is exactly 5,000,000, with no prior
bucket and no hint. -/
def bondRow5M : Row :=
  { instrument_type := some "BOND", quantity := some 1000, price := some 5000 }

/-- BOND row whose derived notional is exactly 4,999,999.99, with no prior
bucket and no hint. -/
def bondRow499 : Row :=
  { instrument_type := some "BOND", quantity := some 1,
    price := some (499999999 / 100) }

/-- Row with both quantity and price present and a stale supplied
notional. -/
def rowC4 : Row :=
  { quantity := some 3, price := some 5, notional := some 999 }

/-- Row with a null quantity but a non-null supplied notional. -/
def rowC10 : Row :=
  { quantity := none, price := some 5, notional := some 123 }

/-- A fully populated valid row used by the validation witnesses. -/
def okRowC3 : Row :=
  { trade_id := some "T1", order_id := some "O1", client_id := some "C1",
    side := some "BUY", quantity := some 10, price := some 5,
    trade_date := some "2024-05-01", trade_ts := some "2024-05-02T10:00:00Z",
    currency := some "USD", instrument_type := some "BOND",
    notional := some 50 }

/-- A row breaching R003 (negative quantity). -/
def badRowC3 : Row := { okRowC3 with trade_id := some "T2", quantity := some (-5) }

/-- Batch whose schema lacks the `price` column (and other mandatory
columns): every row must be flagged by R001. -/
def dfC6gap : DataFrame :=
  { cols := ["trade_id", "order_id", "client_id", "side",
             "quantity", "trade_ts", "instrument_type"],
    rows := [okRowC3, badRowC3] }

/-- Row with a null `side`, otherwise fully populated. -/
def rowC6 : Row := { okRowC3 with side := none }

/-- Canonical-schema batch with one row whose `side` is null. -/
def dfC6null : DataFrame :=
  { cols := canonicalCols, rows := [rowC6] }

/-- The empty enriched batch. -/
def emptyBatch : DataFrame := { cols := enrichedCols, rows := [] }

/-- Product master with two CUSIP-keyed entries, both with an NA `isin`
cell — legitimate for a table keyed by ISIN or CUSIP (spec section 3). -/
def pmC5dup : List ProductEntry :=
  [{ cusip := some "037833100", symbol := some "AAA" },
   { cusip := some "17275R102", symbol := some "BBB" }]

/-- Batch row with an NA `isin` and a non-null `symbol` (so the CUSIP
fallback is not triggered): its NA `isin` matches both NA-`isin` master
entries in the left merge. -/
def rowC5dup : Row := { trade_id := some "T5", symbol := some "S5" }

/-- One-row canonical batch whose single row fans out in the ISIN merge
against `pmC5dup`. -/
def dfC5dup : DataFrame := { cols := canonicalCols, rows := [rowC5dup] }

/-- Uniquely keyed product master for the keyed-case witness. -/
def pmC5key : List ProductEntry :=
  [{ isin := some "US0000000001", cusip := some "037833100",
     symbol := some "ACME", instrument_type := some "BOND",
     liq_rule_key := some "HIGH" }]

/-- Uniquely keyed client master for the keyed-case witness. -/
def cmC5key : List ClientEntry :=
  [{ customerID := some "C1", risk_tier := some "LOW", region := some "EU" }]

/-- Batch row matching the single entry of each keyed master exactly
once. -/
def rowC5key : Row :=
  { trade_id := some "T9", client_id := some "C1",
    isin := some "US0000000001" }

/-- One-row canonical batch for the keyed-case witness. -/
def dfC5key : DataFrame := { cols := canonicalCols, rows := [rowC5key] }

/-! ## Shared lemmas -/

/-- Dropping the empty lists before flattening changes nothing. -/
theorem flatten_filter_pos {α : Type} (l : List (List α)) :
    (l.filter (fun x => 0 < x.length)).flatten = l.flatten := by
  induction l with
  | nil => rfl
  | cons a t ih =>
    by_cases h : 0 < a.length
    · simp [List.filter_cons, h, ih]
    · have ha : a = [] := List.length_eq_zero.mp (Nat.eq_zero_of_not_pos h)
      simp [List.filter_cons, h, ih, ha]

/-- The product join leaves `quantity` untouched. -/
theorem enrich_product_row_quantity (pm : List ProductEntry) (r : Row) :
    (enrich_product_row pm r).1.quantity = r.quantity := by
  simp only [enrich_product_row]
  split <;> rfl

/-- The product join leaves `price` untouched. -/
theorem enrich_product_row_price (pm : List ProductEntry) (r : Row) :
    (enrich_product_row pm r).1.price = r.price := by
  simp only [enrich_product_row]
  split <;> rfl

/-- Enrichment leaves `quantity` untouched. -/
theorem enrich_row_quantity (pm : List ProductEntry) (cm : List ClientEntry) (r : Row) :
    (enrich_row pm cm r).quantity = r.quantity := by
  simp [enrich_row, enrich_client_row, derive_notional, enrich_product_row_quantity]

/-- Enrichment leaves `price` untouched. -/
theorem enrich_row_price (pm : List ProductEntry) (cm : List ClientEntry) (r : Row) :
    (enrich_row pm cm r).price = r.price := by
  simp [enrich_row, enrich_client_row, derive_notional, enrich_product_row_price]

/-- Enriched notional is the product of the row's quantity and price, or
NA when either input is NA. -/
theorem enrich_row_notional (pm : List ProductEntry) (cm : List ClientEntry) (r : Row) :
    (enrich_row pm cm r).notional =
      match r.quantity, r.price with
      | some q, some p => some ((q : ℚ) * p)
      | _, _ => none := by
  simp [enrich_row, enrich_client_row, derive_notional,
    enrich_product_row_quantity, enrich_product_row_price]

/-- Row indices of a breach frame are exactly the offending index list. -/
theorem breaches_df_map_row_index (rid sev rsn : String) (idx : List Nat)
    (df : DataFrame) :
    (breaches_df rid sev rsn idx df).map Breach.row_index = idx := by
  simp [breaches_df, List.map_map, Function.comp_def]

/-- Some breach of a breach frame points at `i` iff `i` is in the
offending index list. -/
theorem mem_breaches_df_row_index (rid sev rsn : String) (idx : List Nat)
    (df : DataFrame) (i : Nat) :
    (∃ b ∈ breaches_df rid sev rsn idx df, b.row_index = i) ↔ i ∈ idx := by
  simp [breaches_df]

/-- Every breach of a breach frame carries the frame's rule id and
severity. -/
theorem breaches_df_fields (rid sev rsn : String) (idx : List Nat)
    (df : DataFrame) (b : Breach) (hb : b ∈ breaches_df rid sev rsn idx df) :
    b.rule_id = rid ∧ b.severity = sev := by
  rcases List.mem_map.mp hb with ⟨a, _, rfl⟩
  exact ⟨rfl, rfl⟩

/-- An option falling back to itself is unchanged. -/
theorem orElse_self {α : Type} (x : Option α) : (x.orElse fun _ => x) = x := by
  cases x <;> rfl

/-- First match of a predicate is the head of its filter. -/
theorem find?_eq_head?_filter {α : Type} (p : α → Bool) (l : List α) :
    l.find? p = (l.filter p).head? := by
  induction l with
  | nil => rfl
  | cons a t ih =>
    cases h : p a
    · rw [List.find?_cons_of_neg _ (by simp [h]), List.filter_cons,
        if_neg (by simp [h]), ih]
    · rw [List.find?_cons_of_pos _ h, List.filter_cons, if_pos h, List.head?_cons]

/-- Selecting a list against the mask of its own image keeps exactly the
elements satisfying the mask function. -/
theorem zip_map_filter_fst {α β : Type} (l : List α) (g : α → β) (q : β → Bool) :
    (((l.zip ((l.map g).map q)).filter (fun x => x.2)).map Prod.fst) =
      l.filter (fun a => q (g a)) := by
  induction l with
  | nil => rfl
  | cons a t ih =>
    simp only [List.map_cons, List.zip_cons_cons, List.filter_cons,
      List.map_map] at ih ⊢
    cases h : q (g a) <;> simp [h, ih]

/-- Under a one-to-one ISIN key the ISIN merge is the per-row first-match
lookup. -/
theorem isinMerge_eq_map (pm : List ProductEntry) (rows : List Row)
    (h1 : ∀ r ∈ rows, (pm.filter (fun e => e.isin == r.isin)).length ≤ 1) :
    isinMerge pm rows = rows.map (isinKeyedRow pm) := by
  induction rows with
  | nil => rfl
  | cons a t ih =>
    have ha := h1 a (List.mem_cons_self a t)
    have hhead : (match pm.filter (fun e => e.isin == a.isin) with
        | [] => ([(a, none)] : List (Row × Option String))
        | hits => hits.map (fun e => (a, e.liq_rule_key))) =
        [isinKeyedRow pm a] := by
      rw [isinKeyedRow, find?_eq_head?_filter]
      cases hf : pm.filter (fun e => e.isin == a.isin) with
      | nil => rfl
      | cons e es =>
        cases es with
        | nil => rfl
        | cons e2 es2 =>
          rw [hf] at ha
          simp at ha
    show (match pm.filter (fun e => e.isin == a.isin) with
        | [] => ([(a, none)] : List (Row × Option String))
        | hits => hits.map (fun e => (a, e.liq_rule_key))) ++ isinMerge pm t = _
    rw [hhead, ih (fun r hr => h1 r (List.mem_cons_of_mem a hr)), List.map_cons,
      List.singleton_append]

/-- Under a one-to-one CUSIP key the CUSIP merge is the per-row
first-match lookup. -/
theorem cusipMerge_eq_map (pm : List ProductEntry) (sel : List Row)
    (h2 : ∀ r ∈ sel, (pm.filter (fun e => e.cusip == r.cusip)).length ≤ 1) :
    cusipMerge pm sel = sel.map (fun r => pm.find? (fun e => e.cusip == r.cusip)) := by
  induction sel with
  | nil => rfl
  | cons a t ih =>
    have ha := h2 a (List.mem_cons_self a t)
    have hhead : (match pm.filter (fun e => e.cusip == a.cusip) with
        | [] => ([none] : List (Option ProductEntry))
        | hits => hits.map some) =
        [pm.find? (fun e => e.cusip == a.cusip)] := by
      rw [find?_eq_head?_filter]
      cases hf : pm.filter (fun e => e.cusip == a.cusip) with
      | nil => rfl
      | cons e es =>
        cases es with
        | nil => rfl
        | cons e2 es2 =>
          rw [hf] at ha
          simp at ha
    show (match pm.filter (fun e => e.cusip == a.cusip) with
        | [] => ([none] : List (Option ProductEntry))
        | hits => hits.map some) ++ cusipMerge pm t = _
    rw [hhead, ih (fun r hr => h2 r (List.mem_cons_of_mem a hr)), List.map_cons,
      List.singleton_append]

/-- Under a one-to-one client key the client merge is the per-row map that
nulls the collided `risk_tier`/`region` columns. -/
theorem enrich_client_merge_eq_map (cm : List ClientEntry)
    (ps : List (Row × Option String))
    (h3 : ∀ p ∈ ps, (cm.filter (fun e => e.customerID == p.1.client_id)).length ≤ 1) :
    enrich_client_merge cm ps = ps.map (fun p =>
      ({ p.1 with risk_tier := none, region := none }, p.2)) := by
  induction ps with
  | nil => rfl
  | cons a t ih =>
    have ha := h3 a (List.mem_cons_self a t)
    have hhead : (match cm.filter (fun e => e.customerID == a.1.client_id) with
        | [] => [({ a.1 with risk_tier := none, region := none }, a.2)]
        | hits => hits.map (fun _ => ({ a.1 with risk_tier := none, region := none }, a.2))) =
        [({ a.1 with risk_tier := none, region := none }, a.2)] := by
      cases hf : cm.filter (fun e => e.customerID == a.1.client_id) with
      | nil => rfl
      | cons e es =>
        cases es with
        | nil => rfl
        | cons e2 es2 =>
          rw [hf] at ha
          simp at ha
    show (match cm.filter (fun e => e.customerID == a.1.client_id) with
        | [] => [({ a.1 with risk_tier := none, region := none }, a.2)]
        | hits => hits.map (fun _ => ({ a.1 with risk_tier := none, region := none }, a.2)))
        ++ enrich_client_merge cm t = _
    rw [hhead, ih (fun p hp => h3 p (List.mem_cons_of_mem a hp)), List.map_cons,
      List.singleton_append]

/-- Positional assignment into the masked positions of a mapped list is a
per-element conditional update. -/
theorem assignMasked_map (rows : List Row) (g : Row → Row × Option String)
    (f2 : Row → Option ProductEntry) :
    assignMasked (rows.map g) ((rows.filter (fun r => needCusip (g r))).map f2) =
      rows.map (fun r =>
        if needCusip (g r) then applyCusipOverwrite (g r) (f2 r) else g r) := by
  induction rows with
  | nil => rfl
  | cons a t ih =>
    cases hna : needCusip (g a) <;>
      simp [assignMasked, List.filter_cons, hna, ih]

/-- Index-aligned `combine_first` over a mapped list pairs every element
with its own source row. -/
theorem combineFirstAligned_map (rows : List Row) (k : Row → Row × Option String) :
    combineFirstAligned rows (rows.map k) =
      rows.map (fun r => combineRow (some r) (k r)) := by
  induction rows with
  | nil => rfl
  | cons a t ih => simp [combineFirstAligned, ih]

/-- The product join leaves `client_id` untouched. -/
theorem enrich_product_row_client_id (pm : List ProductEntry) (r : Row) :
    (enrich_product_row pm r).1.client_id = r.client_id := by
  simp only [enrich_product_row]
  split <;> rfl

/-- One merged-and-combined row under keyed lookups is exactly the per-row
product join. -/
theorem product_row_from_merge (pm : List ProductEntry) (r : Row) :
    combineRow (some r)
      (if needCusip (isinKeyedRow pm r) then
        applyCusipOverwrite (isinKeyedRow pm r) (pm.find? (fun e => e.cusip == r.cusip))
      else isinKeyedRow pm r) =
      enrich_product_row pm r := by
  have hnc : needCusip (isinKeyedRow pm r) = (r.symbol.isNone && r.cusip.isSome) := rfl
  rw [hnc]
  by_cases hc : (r.symbol.isNone && r.cusip.isSome) = true
  · rw [if_pos hc]
    simp only [enrich_product_row, combineRow, applyCusipOverwrite, isinKeyedRow]
    rw [if_pos hc]
    simp only [Option.some_bind]
  · rw [if_neg hc]
    simp only [enrich_product_row, combineRow, isinKeyedRow]
    rw [if_neg hc]
    simp only [Option.some_bind]
    rw [orElse_self, orElse_self]

/-- Under one-to-one ISIN and CUSIP keys the merge-level product join
succeeds and equals the per-row product join. -/
theorem enrich_product_merge_eq_keyed (pm : List ProductEntry) (rows : List Row)
    (h1 : ∀ r ∈ rows, (pm.filter (fun e => e.isin == r.isin)).length ≤ 1)
    (h2 : ∀ r ∈ rows, (pm.filter (fun e => e.cusip == r.cusip)).length ≤ 1) :
    enrich_product_merge pm rows = Except.ok (rows.map (enrich_product_row pm)) := by
  have hmap := isinMerge_eq_map pm rows h1
  by_cases hall : (isinMerge pm rows).all (fun p => !(needCusip p)) = true
  · simp only [enrich_product_merge]
    rw [if_pos hall, hmap, combineFirstAligned_map]
    congr 1
    apply List.map_congr_left
    intro r hr
    have hfalse : needCusip (isinKeyedRow pm r) = false := by
      have hmem : isinKeyedRow pm r ∈ isinMerge pm rows := by
        rw [hmap]
        exact List.mem_map_of_mem _ hr
      have := List.all_eq_true.mp hall _ hmem
      simpa using this
    have hrow := product_row_from_merge pm r
    rw [if_neg (by simp [hfalse])] at hrow
    exact hrow
  · have hlen : (isinMerge pm rows).length = rows.length := by
      rw [hmap]
      exact List.length_map rows _
    simp only [enrich_product_merge]
    rw [if_neg hall, if_neg (by simp [hlen]), hmap]
    have hsel : ((rows.zip ((rows.map (isinKeyedRow pm)).map needCusip)).filter
        (fun q => q.2)).map Prod.fst =
        rows.filter (fun r => needCusip (isinKeyedRow pm r)) :=
      zip_map_filter_fst rows (isinKeyedRow pm) needCusip
    rw [hsel, cusipMerge_eq_map pm _ (fun r hr => h2 r (List.mem_of_mem_filter hr)),
      if_neg (by simp), assignMasked_map, combineFirstAligned_map]
    congr 1
    apply List.map_congr_left
    intro r hr
    exact product_row_from_merge pm r

/-- Under one-to-one join keys the merge-level enrichment succeeds and
returns exactly the keyed per-row enrichment. -/
theorem run_enrichment_merge_eq_keyed (pm : List ProductEntry)
    (cm : List ClientEntry) (df : DataFrame)
    (h1 : ∀ r ∈ df.rows, (pm.filter (fun e => e.isin == r.isin)).length ≤ 1)
    (h2 : ∀ r ∈ df.rows, (pm.filter (fun e => e.cusip == r.cusip)).length ≤ 1)
    (h3 : ∀ r ∈ df.rows, (cm.filter (fun e => e.customerID == r.client_id)).length ≤ 1) :
    run_enrichment_merge pm cm df = Except.ok (run_enrichment pm cm df) := by
  have hprod := enrich_product_merge_eq_keyed pm df.rows h1 h2
  have hclient : enrich_client_merge cm (df.rows.map (enrich_product_row pm)) =
      (df.rows.map (enrich_product_row pm)).map (fun p =>
        ({ p.1 with risk_tier := none, region := none }, p.2)) := by
    apply enrich_client_merge_eq_map
    intro p hp
    rcases List.mem_map.mp hp with ⟨r, hr, rfl⟩
    rw [enrich_product_row_client_id]
    exact h3 r hr
  simp only [run_enrichment_merge, hprod, hclient, List.map_map]
  rfl

/-! ## Claim theorems -/

/-- Claim C4: for every row with non-null quantity and non-null price, the
post-enrichment notional equals the product quantity * price, whatever
notional value the input row carried: notional is always recomputed, never
merely filled when missing. -/
theorem claim_C4_notional_recompute (pm : List ProductEntry)
    (cm : List ClientEntry) (r : Row) (q : Int) (p : ℚ)
    (hq : r.quantity = some q) (hp : r.price = some p) :
    (enrich_row pm cm r).notional = some ((q : ℚ) * p) := by
  rw [enrich_row_notional, hq, hp]

/-- Witness for C4 at a concrete row carrying a stale supplied notional of
999: enrichment recomputes 3 * 5 = 15. -/
theorem claim_C4_notional_recompute_witness :
    rowC4.notional = some 999 ∧
      (enrich_row [] [] rowC4).notional = some (((3 : Int) : ℚ) * 5) :=
  ⟨rfl, claim_C4_notional_recompute [] [] rowC4 3 5 rfl rfl⟩

/-- Claim C10: for every row in which quantity is null or price is null,
enrichment sets that row's notional to null, even when the input row
carried a non-null supplied notional. -/
theorem claim_C10_notional_nulled (pm : List ProductEntry)
    (cm : List ClientEntry) (r : Row)
    (h : r.quantity = none ∨ r.price = none) :
    (enrich_row pm cm r).notional = none := by
  rcases h with h | h
  · rw [enrich_row_notional, h]
  · rw [enrich_row_notional, h]
    cases r.quantity <;> rfl

/-- Witness for C10 at a concrete row with a null quantity and a supplied
notional of 123: enrichment replaces the known notional with null. -/
theorem claim_C10_notional_nulled_witness :
    rowC10.notional = some 123 ∧ (enrich_row [] [] rowC10).notional = none :=
  ⟨rfl, claim_C10_notional_nulled [] [] rowC10 (Or.inl rfl)⟩

/-- Claim C5, counterexample: the claim quantifies over every pair of
reference tables, but a product master holding two NA-`isin` (CUSIP-keyed)
entries duplicates a NA-`isin` batch row in the ISIN left merge, because
`pd.merge` matches NA join keys: the merge-level enrichment of a one-row
batch returns two rows. -/
theorem claim_C5_cardinality_counterexample :
    Except.map (fun out => out.rows.length)
        (run_enrichment_merge pmC5dup [] dfC5dup) = Except.ok 2 ∧
      dfC5dup.rows.length = 1 :=
  ⟨rfl, rfl⟩

/-- Claim C5 as amended: for every canonical input batch and reference
tables whose joins are one-to-one against the batch — each row matches at
most one product entry on ISIN, at most one on CUSIP, and at most one
client entry on the client identifier, as with uniquely keyed masters —
the merge-level enrichment succeeds and returns exactly the per-row
enrichment of the batch: as many rows as the input, in the same order,
the output row at every position being the enrichment of the input row at
that position. -/
theorem claim_C5_row_identity (pm : List ProductEntry) (cm : List ClientEntry)
    (df : DataFrame)
    (h1 : ∀ r ∈ df.rows, (pm.filter (fun e => e.isin == r.isin)).length ≤ 1)
    (h2 : ∀ r ∈ df.rows, (pm.filter (fun e => e.cusip == r.cusip)).length ≤ 1)
    (h3 : ∀ r ∈ df.rows, (cm.filter (fun e => e.customerID == r.client_id)).length ≤ 1) :
    run_enrichment_merge pm cm df = Except.ok (run_enrichment pm cm df) ∧
      (run_enrichment pm cm df).rows.length = df.rows.length ∧
      ∀ i, (run_enrichment pm cm df).rows.get? i =
        (df.rows.get? i).map (enrich_row pm cm) := by
  refine ⟨run_enrichment_merge_eq_keyed pm cm df h1 h2 h3,
    by simp [run_enrichment], fun i => ?_⟩
  simp [run_enrichment, List.get?_map]

/-- Witness for the amended C5 at uniquely keyed masters: the merge-level
enrichment succeeds, equals the per-row enrichment, and preserves the row
count. -/
theorem claim_C5_row_identity_witness :
    run_enrichment_merge pmC5key cmC5key dfC5key =
        Except.ok (run_enrichment pmC5key cmC5key dfC5key) ∧
      (run_enrichment pmC5key cmC5key dfC5key).rows.length = dfC5key.rows.length := by
  obtain ⟨ha, hb, -⟩ :=
    claim_C5_row_identity pmC5key cmC5key dfC5key (by decide) (by decide) (by decide)
  exact ⟨ha, hb⟩

/-- Claim C9: rule R006_NOTIONAL applied to the output of enrichment
returns zero breaches — enrichment sets every row's notional to null or to
exactly the product the rule recomputes, so the rule's condition is
unsatisfiable on an enriched batch. -/
theorem claim_C9_notional_rule_unsat (pm : List ProductEntry)
    (cm : List ClientEntry) (df : DataFrame) :
    rule_notional_consistency (run_enrichment pm cm df) = [] := by
  have hcols : (run_enrichment pm cm df).cols = enrichedCols := rfl
  simp only [rule_notional_consistency, hcols]
  rw [if_pos (by decide)]
  have hnil : ((List.range (run_enrichment pm cm df).rows.length).filter
      (fun i =>
        let r := (run_enrichment pm cm df).rows.getD i default
        match r.quantity, r.price, r.notional with
        | some q, some p, some n => decide (|n - (q : ℚ) * p| > 1 / 100)
        | _, _, _ => false)) = [] := by
    rw [List.filter_eq_nil_iff]
    intro i hi
    have hlt : i < df.rows.length := by
      simpa [run_enrichment] using List.mem_range.mp hi
    obtain ⟨r, hr⟩ : ∃ r, df.rows[i]? = some r :=
      ⟨df.rows[i], List.getElem?_eq_getElem hlt⟩
    have hrow : (run_enrichment pm cm df).rows.getD i default = enrich_row pm cm r := by
      simp [run_enrichment, List.getD_eq_get?, List.get?_map, hr]
    simp only [hrow]
    rw [enrich_row_quantity, enrich_row_price, enrich_row_notional]
    cases hq : r.quantity <;> cases hp : r.price <;>
      simp [sub_self, abs_zero]
  rw [hnil]
  rfl

/-- The threshold closure agrees with the specification's threshold table. -/
theorem liquidity_rule_eq_spec (it : Option String) (n : Option ℚ) :
    liquidity_rule it n =
      match it, n with
      | some it, some n =>
        if it = "BOND" then
          some (if 5000000 ≤ n then "HIGH" else if 1000000 ≤ n then "MED" else "LOW")
        else if it ∈ ["SWAP", "FUTURE", "OPTION", "REPO"] then
          some (if 10000000 ≤ n then "HIGH" else if 2000000 ≤ n then "MED" else "LOW")
        else none
      | _, _ => none := by
  cases it with
  | none => rfl
  | some it =>
    cases n with
    | none => rfl
    | some n =>
      simp only [liquidity_rule]
      by_cases h1 : it = "BOND"
      · by_cases h2 : (5000000 : ℚ) ≤ n
        · simp [h1, h2, ge_iff_le]
        · by_cases h3 : (1000000 : ℚ) ≤ n <;> simp [h1, h2, h3, ge_iff_le]
      · have hmem : (it = "SWAP" ∨ it = "FUTURE" ∨ it = "OPTION" ∨ it = "REPO") ↔
            it ∈ ["SWAP", "FUTURE", "OPTION", "REPO"] := by simp
        by_cases h4 : it ∈ ["SWAP", "FUTURE", "OPTION", "REPO"]
        · by_cases h5 : (10000000 : ℚ) ≤ n
          · simp [h1, hmem, h4, h5, ge_iff_le]
          · by_cases h6 : (2000000 : ℚ) ≤ n <;>
              simp [h1, hmem, h4, h5, h6, ge_iff_le]
        · simp [h1, hmem, h4]

/-- Claim C2: for every enriched row the liquidity bucket follows exactly
the claimed precedence — an existing non-null bucket is kept, else a
non-null resolved `liq_rule_key` is adopted, else the BOND respectively
SWAP/FUTURE/OPTION/REPO thresholds apply, else the bucket stays null
(`fill_liquidity_row` coincides with the specification transcription
`liquiditySpecC2`) — and at the BOND boundary a row with no prior bucket
or hint whose derived notional is exactly 5,000,000 gets HIGH while
4,999,999.99 gets MED, through the full enrichment pipeline. -/
theorem claim_C2_liquidity_precedence :
    (∀ (r : Row) (liq : Option String),
        fill_liquidity_row r liq = liquiditySpecC2 r liq) ∧
      (run_enrichment [] [] { cols := canonicalCols, rows := [bondRow5M] }).rows.map
          Row.liquidity_bucket = [some "HIGH"] ∧
      (run_enrichment [] [] { cols := canonicalCols, rows := [bondRow499] }).rows.map
          Row.liquidity_bucket = [some "MED"] := by
  refine ⟨fun r liq => ?_,
    by norm_num [run_enrichment, enrich_row, enrich_product_row, enrich_client_row,
      derive_notional, fill_liquidity_row, liquidity_rule, bondRow5M],
    by norm_num [run_enrichment, enrich_row, enrich_product_row, enrich_client_row,
      derive_notional, fill_liquidity_row, liquidity_rule, bondRow499]⟩
  cases hb : r.liquidity_bucket with
  | some b => simp [fill_liquidity_row, liquiditySpecC2, hb]
  | none =>
    cases hl : liq with
    | some k => simp [fill_liquidity_row, liquiditySpecC2, hb, hl]
    | none =>
      simp [fill_liquidity_row, liquiditySpecC2, hb, hl, liquidity_rule_eq_spec]

/-- Claim C1, evaluated at the failing input: the single product-master
entry is found by the primary ISIN join and carries a non-null symbol
`ACME` and instrument type `BOND`, yet the enriched row's symbol and
instrument type stay null — the merge suffixes route the reference values
into the discarded `symbol_pm` / `instrument_type_pm` columns, so the
primary join never supplies them (the claim, and spec section 4.1, say the
reference values are adopted). -/
theorem claim_C1_isin_values_discarded :
    pmC1.find? (fun e => e.isin == rowC1.isin) =
        some { isin := some "US0000000001", symbol := some "ACME",
               instrument_type := some "BOND" } ∧
      (run_enrichment pmC1 [] { cols := canonicalCols, rows := [rowC1] }).rows.map
          Row.symbol = [none] ∧
      (run_enrichment pmC1 [] { cols := canonicalCols, rows := [rowC1] }).rows.map
          Row.instrument_type = [none] :=
  ⟨by decide,
    by simp [run_enrichment, enrich_row, enrich_product_row, enrich_client_row,
      derive_notional, fill_liquidity_row, liquidity_rule, pmC1, rowC1],
    by simp [run_enrichment, enrich_row, enrich_product_row, enrich_client_row,
      derive_notional, fill_liquidity_row, liquidity_rule, pmC1, rowC1]⟩

/-- Claim C7: the breach frame of the whole battery equals the
concatenation of the seven rules run separately, in battery order (each
rule is a pure function of the batch in this embedding, so re-running the
battery on the same batch is literally the same value). -/
theorem claim_C7_rule_union (df : DataFrame) :
    run_all_rules df =
      rule_mandatory df ++ rule_domain_enums df ++ rule_numeric_positive df ++
        rule_identifier_format df ++ rule_timestamp_sanity df ++
        rule_notional_consistency df ++ rule_duplicate_keys df := by
  simp only [run_all_rules, ruleBattery, List.map_cons, List.map_nil]
  rw [flatten_filter_pos]
  simp [List.append_assoc]

/-- Claim C8: the empty input batch yields pass rate 0, no passed rows, no
failed rows and no breaches, and the pass-rate denominator
`max 1 input_rows` is positive for every batch, so the division-by-zero
branch is unreachable. -/
theorem claim_C8_empty_batch :
    (run_validation emptyBatch).metrics.pass_rate_pct = 0 ∧
      (run_validation emptyBatch).passed = [] ∧
      (run_validation emptyBatch).failed = [] ∧
      (run_validation emptyBatch).breaches = [] ∧
      ∀ df : DataFrame, (0 : ℚ) < ((max 1 df.rows.length : Nat) : ℚ) := by
  refine ⟨by simp [run_validation, emptyBatch, passedOf, failedOf, run_all_rules,
      ruleBattery, rule_mandatory, rule_domain_enums, rule_numeric_positive,
      rule_identifier_format, rule_timestamp_sanity, rule_notional_consistency,
      rule_duplicate_keys, breaches_df, round2, roundHalfEven],
    by rfl, by rfl, by rfl, fun df => ?_⟩
  have h : (0 : Nat) < max 1 df.rows.length :=
    lt_of_lt_of_le Nat.zero_lt_one (le_max_left _ _)
  exact_mod_cast h

/-- Claim C6: R001_MANDATORY flags, with CRITICAL severity, exactly the
rows in which some of the eight mandatory fields is null; and when some
mandatory column is entirely absent from the batch schema, every row of
the batch is flagged. -/
theorem claim_C6_mandatory (df : DataFrame) :
    (requiredCols.all (fun c => df.cols.contains c) = true →
      ∀ i r, df.rows.get? i = some r →
        ((∃ b ∈ rule_mandatory df, b.row_index = i) ↔
          (r.trade_id = none ∨ r.order_id = none ∨ r.client_id = none ∨
            r.side = none ∨ r.quantity = none ∨ r.price = none ∨
            r.trade_ts = none ∨ r.instrument_type = none))) ∧
      (requiredCols.all (fun c => df.cols.contains c) = false →
        (rule_mandatory df).map Breach.row_index = List.range df.rows.length) ∧
      (∀ b ∈ rule_mandatory df, b.rule_id = "R001_MANDATORY" ∧
        b.severity = "CRITICAL") := by
  refine ⟨?_, ?_, ?_⟩
  · intro hall i r hir
    have hrm : rule_mandatory df = breaches_df "R001_MANDATORY" "CRITICAL"
        "Mandatory fields must not be null"
        ((List.range df.rows.length).filter
          (fun i => rowMissingMandatory (df.rows.getD i default))) df := by
      simp only [rule_mandatory]
      rw [if_pos hall]
    rw [hrm, mem_breaches_df_row_index, List.mem_filter, List.mem_range]
    have hlt : i < df.rows.length := by
      rcases List.get?_eq_some.mp hir with ⟨h, _⟩
      exact h
    have hisome : df.rows[i]? = some r := by
      simpa [List.get?_eq_getElem?] using hir
    have hgel : df.rows[i] = r := by
      have h2 := List.getElem?_eq_getElem hlt
      rw [h2] at hisome
      exact Option.some.inj hisome
    simp [hlt, hgel, rowMissingMandatory, Option.isNone_iff_eq_none, or_assoc]
  · intro hfalse
    have hrm : rule_mandatory df = breaches_df "R001_MANDATORY" "CRITICAL"
        "Mandatory fields must not be null" (List.range df.rows.length) df := by
      simp only [rule_mandatory]
      rw [if_neg (by rw [hfalse]; exact Bool.false_ne_true)]
    rw [hrm, breaches_df_map_row_index]
  · intro b hb
    simp only [rule_mandatory] at hb
    exact breaches_df_fields _ _ _ _ _ _ hb

/-- Witness for C6: a batch whose schema lacks the `price` column flags
both of its rows, and on a canonical-schema batch the single row with a
null `side` is flagged. -/
theorem claim_C6_mandatory_witness :
    (requiredCols.all (fun c => dfC6gap.cols.contains c) = false ∧
      (rule_mandatory dfC6gap).map Breach.row_index =
        List.range dfC6gap.rows.length) ∧
      ((∃ b ∈ rule_mandatory dfC6null, b.row_index = 0) ↔
        (rowC6.trade_id = none ∨ rowC6.order_id = none ∨
          rowC6.client_id = none ∨ rowC6.side = none ∨
          rowC6.quantity = none ∨ rowC6.price = none ∨
          rowC6.trade_ts = none ∨ rowC6.instrument_type = none)) :=
  ⟨⟨by decide, (claim_C6_mandatory dfC6gap).2.1 (by decide)⟩,
    (claim_C6_mandatory dfC6null).1 (by decide) 0 rowC6 rfl⟩

end TradeETL
